import Mathlib

/-!
Shallow embedding of src/exo_escape_velocity.py.

The script fetches exoplanet records (rows with keys pl_name, pl_rade,
pl_bmasse, pl_radj, pl_bmassj) from the NASA Exoplanet Archive, either as
parsed JSON (requests path, plain Python floats) or as an astropy table
(PyVO path, numpy float64 scalars), and computes each planet escape
velocity in calc_escape_velocity.

Numeric values are embedded as exact rationals; the square root applied at
the end is interpreted as the exact real square root (idealised
double-precision semantics).  Each numeric value carries a Bool recording
whether it is a numpy scalar, because the source behaves differently on
the two paths: plain-float division by zero raises ZeroDivisionError while
numpy division by zero yields an infinity or NaN, and a plain negative
float raised to the power 1/2 yields a complex number while a negative
numpy float yields NaN.
-/

instance {ε α : Type} [DecidableEq ε] [DecidableEq α] : DecidableEq (Except ε α) := fun x y =>
  match x, y with
  | .ok a, .ok b =>
    if h : a = b then isTrue (by rw [h])
    else isFalse (fun hh => h (by injection hh))
  | .error a, .error b =>
    if h : a = b then isTrue (by rw [h])
    else isFalse (fun hh => h (by injection hh))
  | .ok _, .error _ => isFalse (fun hh => Except.noConfusion hh)
  | .error _, .ok _ => isFalse (fun hh => Except.noConfusion hh)

/-- A Python exception that calc_escape_velocity can raise. -/
inductive PyErr
  | keyError (key : String)
  | typeError
  | zeroDivisionError
deriving DecidableEq

/-- A JSON/table field value as the loop body sees it: a number (with a flag
recording whether it is a numpy scalar), a null, or a string. -/
inductive JVal
  | num (x : ℚ) (np : Bool)
  | null
  | str (s : String)
deriving DecidableEq

/-- One archive row.  A `none` field models an absent key, for which the
subscript access in the source raises KeyError. -/
structure PlanetRecord where
  pl_name : Option String
  pl_rade : Option JVal
  pl_bmasse : Option JVal
  pl_radj : Option JVal
  pl_bmassj : Option JVal
deriving DecidableEq

/-- The value of the earth_units_flag argument as a dynamically typed Python
value; the source tests it with a bare `if earth_units_flag:`. -/
inductive PyFlag
  | pybool (b : Bool)
  | pystr (s : String)
  | pynum (x : ℚ)
  | pynone
deriving DecidableEq

/-- Python truthiness of the flag argument. -/
def truthy : PyFlag → Bool
  | .pybool b => b
  | .pystr s => !(s.isEmpty)
  | .pynum x => decide (x ≠ 0)
  | .pynone => false

/- Constants of calc_escape_velocity (source lines 111-115), embedded as
exact rationals. -/

def earth_mass : ℚ := 5.97219 * 10 ^ 24
def earth_radius : ℚ := 6.371 * 10 ^ 6
def jupiter_mass : ℚ := 1.89813 * 10 ^ 27
def jupiter_radius : ℚ := 6.9911 * 10 ^ 7
def g : ℚ := 6.674 * (10 : ℚ) ^ (-11 : ℤ)

/-- Field lookup followed by use in float multiplication: an absent key
raises KeyError; a None or string value makes the multiplication raise
TypeError; a number is returned together with its numpy flag. -/
def getNum (key : String) : Option JVal → Except PyErr (ℚ × Bool)
  | none => .error (.keyError key)
  | some (.num x np) => .ok (x, np)
  | some .null => .error .typeError
  | some (.str _) => .error .typeError

/-- Value of the expression 2*g*mass/radius before the power 1/2 is taken.
Infinities and NaN arise only from numpy division by zero. -/
inductive BaseVal
  | fin (b : ℚ) (np : Bool)
  | posInf
  | negInf
  | nan
deriving DecidableEq

/-- The division 2*g*mass/radius (source line 131, inner expression).  With
plain Python floats a zero radius raises ZeroDivisionError; if either
operand is a numpy scalar the division returns a signed infinity (or NaN
for 0/0) instead of raising. -/
def divBase (mass radius : ℚ) (massNp radNp : Bool) : Except PyErr BaseVal :=
  let num : ℚ := 2 * g * mass
  if radius = 0 then
    if massNp || radNp then
      if 0 < num then .ok .posInf
      else if num < 0 then .ok .negInf
      else .ok .nan
    else .error .zeroDivisionError
  else .ok (.fin (num / radius) (massNp || radNp))

/-- The escape-velocity float value right before it is appended: the field
fin carries the radicand b, standing for the double sqrt(b)/1000 (the
division by 1000 of source line 132 is applied in the real-valued
interpretation escape_velocity_value below). -/
inductive VKind
  | fin (radicand : ℚ)
  | posInf
  | nan
deriving DecidableEq

/-- Result of `(base) ** (1/2)` before the numpy normalisation: a plain
negative float raised to 1/2 yields a Python complex number, a negative
numpy float yields NaN. -/
inductive RawVel
  | fin (radicand : ℚ) (np : Bool)
  | posInf
  | nan
  | cplx (radicand : ℚ)
deriving DecidableEq

/-- `x ** (1/2)` (source line 131, outer power). -/
def powHalf : BaseVal → RawVel
  | .fin b np => if 0 ≤ b then .fin b np else (if np then .nan else .cplx b)
  | .posInf => .posInf
  | .negInf => .nan
  | .nan => .nan

/-- An emitted velocity value: its kind together with the flag recording
whether it is a numpy floating scalar. -/
structure EmittedVel where
  val : VKind
  np : Bool
deriving DecidableEq

/-- The isinstance check of source lines 134-137: a numpy floating value is
kept unchanged; a plain float is converted by np.float64 to the same value;
np.float64 applied to a complex number raises TypeError. -/
def npFloatNormalize : RawVel → Except PyErr EmittedVel
  | .fin b np =>
    if np then .ok ⟨.fin b, true⟩
    else .ok ⟨.fin b, true⟩
  | .posInf => .ok ⟨.posInf, true⟩
  | .nan => .ok ⟨.nan, true⟩
  | .cplx _ => .error .typeError

/-- The body of the loop of calc_escape_velocity (source lines 118-139) for
one record: select the unit-appropriate mass and radius fields, convert to
SI, compute (2*g*mass/radius) ** (1/2), normalise to a numpy float, and
pair with the planet name (the pl_name lookup happens last, at the append
of line 139). -/
def procRecord (earth_units_flag : Bool) (planet : PlanetRecord) :
    Except PyErr (String × EmittedVel) :=
  match getNum (if earth_units_flag then ("pl_bmasse") else ("pl_bmassj"))
      (if earth_units_flag then planet.pl_bmasse else planet.pl_bmassj) with
  | .error e => .error e
  | .ok (mq, massNp) =>
    match getNum (if earth_units_flag then ("pl_rade") else ("pl_radj"))
        (if earth_units_flag then planet.pl_rade else planet.pl_radj) with
    | .error e => .error e
    | .ok (rq, radNp) =>
      -- local variables mass and radius of source lines 124-128, inlined
      match divBase (mq * (if earth_units_flag then earth_mass else jupiter_mass))
          (rq * (if earth_units_flag then earth_radius else jupiter_radius)) massNp radNp with
      | .error e => .error e
      | .ok b =>
        match npFloatNormalize (powHalf b) with
        | .error e => .error e
        | .ok v =>
          match planet.pl_name with
          | none => .error (.keyError ("pl_name"))
          | some n => .ok (n, v)

/-- The loop of calc_escape_velocity: records are processed in input order,
each appending one entry to planet_data; the first uncaught exception
aborts the whole batch. -/
def calcLoop (earth_units_flag : Bool) :
    List PlanetRecord → Except PyErr (List (String × EmittedVel))
  | [] => .ok []
  | planet :: rest =>
    match procRecord earth_units_flag planet with
    | .error e => .error e
    | .ok entry =>
      match calcLoop earth_units_flag rest with
      | .error e => .error e
      | .ok entries => .ok (entry :: entries)

/-- Observable outcome of a successful call: `printed` is the planet_data
list passed to print on source line 141, and `ret` is the Python return
value — the function body has no return statement, so it returns None. -/
structure CalcOutcome where
  printed : List (String × EmittedVel)
  ret : Option (List (String × EmittedVel))
deriving DecidableEq

/-- calc_escape_velocity (source lines 90-141). -/
def calc_escape_velocity (results : List PlanetRecord) (earth_units_flag : PyFlag) :
    Except PyErr CalcOutcome :=
  match calcLoop (truthy earth_units_flag) results with
  | .error e => .error e
  | .ok planet_data => .ok ⟨planet_data, none⟩

/-- The km/s value denoted by an emitted VKind.fin radicand: the square
root of source line 131 followed by the division by 1000 of line 132. -/
noncomputable def escape_velocity_value (radicand : ℚ) : ℝ :=
  Real.sqrt (radicand : ℝ) / 1000

/-- State-passing view of a call: the Python function also returns the
record store it was handed; the loop body only reads results[i] and record
fields and assigns only the local variables planet, mass, radius and
escape_velocity, so the store after the call is the store before it. -/
def calc_escape_velocity_io (results : List PlanetRecord) (earth_units_flag : PyFlag) :
    Except PyErr CalcOutcome × List PlanetRecord :=
  (calc_escape_velocity results earth_units_flag, results)

/-- The select clause built by get_exodataset (source lines 44-51): with a
nonzero select_specified_rows it asks the service for the top N rows,
otherwise for all rows. -/
def select_string (select_strs : List String) (select_specified_rows : ℕ) : String :=
  if select_specified_rows ≠ 0 then
    ("select+top+") ++ toString select_specified_rows ++ ("+") ++
      String.intercalate (",+") select_strs ++ ("+")
  else
    ("select+") ++ String.intercalate (",+") select_strs ++ ("+")

/-- Modelled from the spec: the external tabular-data service (the HTTP
layer is out of scope per section 6 of the spec; only the query-string
construction is in src) answers a select top N query with the first N rows
of the table and a plain select with all rows. -/
def tap_service_rows (table : List PlanetRecord) (select_specified_rows : ℕ) :
    List PlanetRecord :=
  if select_specified_rows ≠ 0 then table.take select_specified_rows else table

lemma g_pos : (0:ℚ) < g := by norm_num [g]

lemma unit_mass_pos (e : Bool) :
    (0:ℚ) < (if e then earth_mass else jupiter_mass) := by
  cases e <;> norm_num [earth_mass, jupiter_mass]

lemma unit_radius_pos (e : Bool) :
    (0:ℚ) < (if e then earth_radius else jupiter_radius) := by
  cases e <;> norm_num [earth_radius, jupiter_radius]

/-- On a computable record with non-negative mass, the loop body emits the
pair of the planet name and the numpy float whose radicand is the SI
expression 2*g*(mass_units*unit_mass)/(radius_units*unit_radius). -/
lemma procRecord_valid (e : Bool) (p : PlanetRecord)
    (n : String) (mq rq : ℚ) (npm npr : Bool)
    (hn : p.pl_name = some n)
    (hm : (if e then p.pl_bmasse else p.pl_bmassj) = some (.num mq npm))
    (hr : (if e then p.pl_rade else p.pl_radj) = some (.num rq npr))
    (hrpos : 0 < rq) (hm0 : 0 ≤ mq) :
    procRecord e p
      = .ok (n, ⟨.fin (2 * g * (mq * (if e then earth_mass else jupiter_mass))
          / (rq * (if e then earth_radius else jupiter_radius))), true⟩) := by
  have hrad : rq * (if e then earth_radius else jupiter_radius) ≠ 0 :=
    ne_of_gt (mul_pos hrpos (unit_radius_pos e))
  have hbase : (0:ℚ) ≤ 2 * g * (mq * (if e then earth_mass else jupiter_mass))
      / (rq * (if e then earth_radius else jupiter_radius)) :=
    div_nonneg
      (mul_nonneg (mul_nonneg (by norm_num) g_pos.le)
        (mul_nonneg hm0 (unit_mass_pos e).le))
      (mul_pos hrpos (unit_radius_pos e)).le
  unfold procRecord
  rw [hm, hr]
  simp only [getNum]
  unfold divBase
  rw [if_neg hrad]
  simp only [powHalf, npFloatNormalize, hn, hbase, if_true]
  cases npm <;> cases npr <;> simp [hn]

/-- The name paired with an emitted velocity is the pl_name field of the
record the loop iteration read. -/
lemma procRecord_name (e : Bool) (p : PlanetRecord) (entry : String × EmittedVel)
    (h : procRecord e p = .ok entry) : p.pl_name = some entry.1 := by
  unfold procRecord at h
  repeat' split at h
  all_goals simp_all
  all_goals subst h
  all_goals rfl

/-- The numpy normalisation step only returns values flagged as numpy
floating scalars. -/
lemma npFloatNormalize_np (r : RawVel) (v : EmittedVel)
    (h : npFloatNormalize r = .ok v) : v.np = true := by
  cases r with
  | fin b np => cases np <;> simp [npFloatNormalize] at h <;> simp [← h]
  | posInf => simp [npFloatNormalize] at h; simp [← h]
  | nan => simp [npFloatNormalize] at h; simp [← h]
  | cplx b => simp [npFloatNormalize] at h

/-- Every entry the loop body emits carries a numpy floating value. -/
lemma procRecord_np (e : Bool) (p : PlanetRecord) (entry : String × EmittedVel)
    (h : procRecord e p = .ok entry) : entry.2.np = true := by
  unfold procRecord at h
  repeat' split at h
  all_goals simp_all
  all_goals subst h
  all_goals exact npFloatNormalize_np _ _ (by assumption)

/-- Success of the loop means every record succeeded, in order: the list of
emitted entries corresponds pointwise to the input records. -/
lemma calcLoop_forall2 (e : Bool) :
    ∀ (l : List PlanetRecord) (entries : List (String × EmittedVel)),
      calcLoop e l = .ok entries →
      List.Forall₂ (fun p en => procRecord e p = .ok en) l entries
  | [], entries, h => by
    unfold calcLoop at h
    cases h
    exact .nil
  | p :: rest, entries, h => by
    unfold calcLoop at h
    split at h
    · exact absurd h (by simp)
    next entry hentry =>
      split at h
      · exact absurd h (by simp)
      next es hes =>
        cases h
        exact .cons hentry (calcLoop_forall2 e rest es hes)

/-- Every velocity in a successfully built planet_data list is flagged as a
numpy floating scalar. -/
lemma calcLoop_np (e : Bool) :
    ∀ (l : List PlanetRecord) (entries : List (String × EmittedVel)),
      calcLoop e l = .ok entries → ∀ en ∈ entries, en.2.np = true
  | [], entries, h => by
    unfold calcLoop at h
    cases h
    simp
  | p :: rest, entries, h => by
    unfold calcLoop at h
    split at h
    · exact absurd h (by simp)
    next entry hentry =>
      split at h
      · exact absurd h (by simp)
      next es hes =>
        cases h
        intro en hen
        rcases List.mem_cons.mp hen with h1 | h2
        · subst h1
          exact procRecord_np e p _ hentry
        · exact calcLoop_np e rest es hes en h2

/-- C1: For every computable record (both unit-appropriate fields present and
numeric, radius > 0, with a non-negative mass so that the square root is
defined), the emitted escape velocity equals
sqrt(2 * G * (mass_units * unit_mass_constant) /
(radius_units * unit_radius_constant)) / 1000 in km/s, with
G = 6.674e-11, Earth mass 5.97219e24, Earth radius 6.371e6, Jupiter mass
1.89813e27, Jupiter radius 6.9911e7, the Earth or Jupiter pair being
selected by the unit_system argument. -/
theorem escape_velocity_formula_ok (flag : PyFlag) (p : PlanetRecord)
    (n : String) (mq rq : ℚ) (npm npr : Bool)
    (hn : p.pl_name = some n)
    (hm : (if truthy flag then p.pl_bmasse else p.pl_bmassj) = some (.num mq npm))
    (hr : (if truthy flag then p.pl_rade else p.pl_radj) = some (.num rq npr))
    (hrpos : 0 < rq) (hm0 : 0 ≤ mq) :
    calc_escape_velocity [p] flag
      = .ok ⟨[(n, ⟨.fin (2 * g * (mq * (if truthy flag then earth_mass else jupiter_mass))
          / (rq * (if truthy flag then earth_radius else jupiter_radius))), true⟩)], none⟩
    ∧ escape_velocity_value
        (2 * g * (mq * (if truthy flag then earth_mass else jupiter_mass))
          / (rq * (if truthy flag then earth_radius else jupiter_radius)))
      = Real.sqrt (2 * (g : ℝ)
            * ((mq : ℝ) * (((if truthy flag then earth_mass else jupiter_mass) : ℚ) : ℝ))
          / ((rq : ℝ) * (((if truthy flag then earth_radius else jupiter_radius) : ℚ) : ℝ)))
        / 1000 := by
  constructor
  · simp only [calc_escape_velocity, calcLoop,
      procRecord_valid (truthy flag) p n mq rq npm npr hn hm hr hrpos hm0]
  · unfold escape_velocity_value
    congr 1
    push_cast
    ring

/-- Witness for C1 at a concrete record with one Earth mass and one Earth
radius under the Earth unit system. -/
theorem escape_velocity_formula_ok_witness :
    (0:ℚ) < 1 ∧ (0:ℚ) ≤ 1 ∧
    (calc_escape_velocity
        [⟨some ("K"), some (.num 1 false), some (.num 1 false), none, none⟩]
        (.pybool true)
      = .ok ⟨[(("K"),
          ⟨.fin (2 * g * (1 * (if truthy (.pybool true) then earth_mass else jupiter_mass))
            / (1 * (if truthy (.pybool true) then earth_radius else jupiter_radius))), true⟩)],
          none⟩
    ∧ escape_velocity_value
        (2 * g * (1 * (if truthy (.pybool true) then earth_mass else jupiter_mass))
          / (1 * (if truthy (.pybool true) then earth_radius else jupiter_radius)))
      = Real.sqrt (2 * (g : ℝ)
            * (((1 : ℚ) : ℝ) * (((if truthy (.pybool true) then earth_mass else jupiter_mass) : ℚ) : ℝ))
          / (((1 : ℚ) : ℝ) * (((if truthy (.pybool true) then earth_radius else jupiter_radius) : ℚ) : ℝ)))
        / 1000) :=
  ⟨by norm_num, by norm_num,
    escape_velocity_formula_ok (.pybool true)
      ⟨some ("K"), some (.num 1 false), some (.num 1 false), none, none⟩
      ("K") 1 1 false false rfl rfl rfl (by norm_num) (by norm_num)⟩

/-- C2 (code bug): a record whose unit-appropriate mass field is missing is
not skipped.  The subscript access planet["pl_bmasse"] raises KeyError, which
propagates and aborts the whole batch, so the following well-formed record
"B" is never processed.  The TODO comments at source lines 85-86 state the
intent of removing rows with missing values before this loop runs. -/
theorem missing_mass_field_aborts_batch :
    calc_escape_velocity
      [⟨some ("A"), some (.num 1 false), none, none, none⟩,
       ⟨some ("B"), some (.num 1 false), some (.num 1 false), none, none⟩]
      (.pybool true)
    = .error (.keyError ("pl_bmasse")) := rfl

/-- C3 (code bug): calc_escape_velocity builds and prints planet_data but its
body has no return statement, so its Python return value is None rather than
the sequence of (name, velocity) pairs its own docstring promises (source
line 107: return: 2D List of exoplanet names and their escape velocities).
The outcome below shows printed = the list of pairs and ret = none. -/
theorem calc_prints_but_returns_none :
    calc_escape_velocity
      [⟨some ("K"), some (.num 1 false), some (.num 1 false), none, none⟩]
      (.pybool true)
    = .ok ⟨[(("K"), ⟨.fin (2 * g * (1 * earth_mass) / (1 * earth_radius)), true⟩)], none⟩ := by
  norm_num [calc_escape_velocity, calcLoop, procRecord, getNum, divBase, powHalf,
    npFloatNormalize, truthy, earth_mass, earth_radius, g]

/-- C4 counterexample: a record with negative radius is not skipped.  On the
numpy path the division succeeds, the fractional power of the negative base
yields NaN, NaN passes the isinstance check, and NaN is emitted in the
output, contradicting the claim that no output entry is ever NaN. -/
theorem negative_radius_emits_nan :
    calc_escape_velocity
      [⟨some ("N"), some (.num (-1) true), some (.num 1 true), none, none⟩]
      (.pybool true)
    = .ok ⟨[(("N"), ⟨.nan, true⟩)], none⟩ := by
  norm_num [calc_escape_velocity, calcLoop, procRecord, getNum, divBase, powHalf,
    npFloatNormalize, truthy, earth_mass, earth_radius, g]

/-- C4 (amended): for every record with radius_U > 0 and mass_U >= 0 the
computed escape velocity is a finite non-negative real.  Records with
radius <= 0 are however not skipped: with plain-float fields a zero radius
raises ZeroDivisionError and a negative radius raises TypeError, aborting
the batch, and with numpy fields a radius <= 0 emits Infinity or NaN into
the output. -/
theorem valid_record_velocity_finite_nonneg (flag : PyFlag) (p : PlanetRecord)
    (n : String) (mq rq : ℚ) (npm npr : Bool)
    (hn : p.pl_name = some n)
    (hm : (if truthy flag then p.pl_bmasse else p.pl_bmassj) = some (.num mq npm))
    (hr : (if truthy flag then p.pl_rade else p.pl_radj) = some (.num rq npr))
    (hrpos : 0 < rq) (hm0 : 0 ≤ mq) :
    ∃ b : ℚ, procRecord (truthy flag) p = .ok (n, ⟨.fin b, true⟩)
      ∧ 0 ≤ escape_velocity_value b := by
  refine ⟨_, procRecord_valid (truthy flag) p n mq rq npm npr hn hm hr hrpos hm0, ?_⟩
  unfold escape_velocity_value
  positivity

/-- Witness for the amended C4 at a concrete record with numpy fields of two
Earth masses and three Earth radii. -/
theorem valid_record_velocity_finite_nonneg_witness :
    (0:ℚ) < 3 ∧ (0:ℚ) ≤ 2 ∧
    (∃ b : ℚ, procRecord (truthy (.pybool true))
        ⟨some ("V"), some (.num 3 true), some (.num 2 true), none, none⟩
      = .ok (("V"), ⟨.fin b, true⟩) ∧ 0 ≤ escape_velocity_value b) :=
  ⟨by norm_num, by norm_num,
    valid_record_velocity_finite_nonneg (.pybool true)
      ⟨some ("V"), some (.num 3 true), some (.num 2 true), none, none⟩
      ("V") 2 3 true true rfl rfl rfl (by norm_num) (by norm_num)⟩

/-- C5: the order of emitted results equals the input order: on a successful
batch the printed list corresponds pointwise, in order, to the record list,
one entry per record, each entry carrying the pl_name of its record.  In
particular there is no re-sorting and no deduplication by name: two input
records with the same name yield two output entries. -/
theorem output_order_matches_input (results : List PlanetRecord) (flag : PyFlag)
    (out : CalcOutcome) (h : calc_escape_velocity results flag = .ok out) :
    List.Forall₂ (fun p en => p.pl_name = some en.1) results out.printed := by
  unfold calc_escape_velocity at h
  split at h
  · exact absurd h (by simp)
  next pd hpd =>
    cases h
    exact (calcLoop_forall2 (truthy flag) results pd hpd).imp
      (fun p en hen => procRecord_name _ _ _ hen)

/-- Witness for C5 on a batch with a duplicated name: both duplicates are
emitted, in input order. -/
theorem output_order_matches_input_witness :
    List.Forall₂ (fun (p : PlanetRecord) (en : String × EmittedVel) => p.pl_name = some en.1)
      [⟨some ("D"), some (.num 1 false), some (.num 1 false), none, none⟩,
       ⟨some ("D"), some (.num 1 false), some (.num 1 false), none, none⟩]
      (CalcOutcome.mk
        [(("D"), ⟨.fin (2 * g * (1 * earth_mass) / (1 * earth_radius)), true⟩),
         (("D"), ⟨.fin (2 * g * (1 * earth_mass) / (1 * earth_radius)), true⟩)]
        none).printed :=
  output_order_matches_input
    [⟨some ("D"), some (.num 1 false), some (.num 1 false), none, none⟩,
     ⟨some ("D"), some (.num 1 false), some (.num 1 false), none, none⟩]
    (.pybool true) _
    (by norm_num [calc_escape_velocity, calcLoop, procRecord, getNum, divBase, powHalf,
      npFloatNormalize, truthy, earth_mass, earth_radius, g])

/-- C6: calling the function twice on the same input yields identical output
and leaves the input records unchanged.  The loop body of the source only
reads results[i] and assigns local variables, so the embedding is a pure
function of the record list; the state-passing view returns the store it was
handed. -/
theorem repeat_call_pure (results : List PlanetRecord) (flag : PyFlag) :
    (calc_escape_velocity_io ((calc_escape_velocity_io results flag).2) flag).1
      = (calc_escape_velocity_io results flag).1
    ∧ (calc_escape_velocity_io ((calc_escape_velocity_io results flag).2) flag).2 = results :=
  ⟨rfl, rfl⟩

/-- C7: a record with mass_U = 0 and radius_U > 0 is not skipped and not an
error: the batch succeeds and emits for it an escape velocity of exactly
0.0 (the radicand is 0 and sqrt(0)/1000 = 0). -/
theorem zero_mass_emits_zero_velocity (flag : PyFlag) (p : PlanetRecord)
    (n : String) (rq : ℚ) (npm npr : Bool)
    (hn : p.pl_name = some n)
    (hm : (if truthy flag then p.pl_bmasse else p.pl_bmassj) = some (.num 0 npm))
    (hr : (if truthy flag then p.pl_rade else p.pl_radj) = some (.num rq npr))
    (hrpos : 0 < rq) :
    calc_escape_velocity [p] flag = .ok ⟨[(n, ⟨.fin 0, true⟩)], none⟩
    ∧ escape_velocity_value 0 = 0 := by
  have h0 := procRecord_valid (truthy flag) p n 0 rq npm npr hn hm hr hrpos le_rfl
  have hB : 2 * g * (0 * (if truthy flag then earth_mass else jupiter_mass))
      / (rq * (if truthy flag then earth_radius else jupiter_radius)) = 0 := by
    simp
  rw [hB] at h0
  constructor
  · simp only [calc_escape_velocity, calcLoop, h0]
  · unfold escape_velocity_value
    simp

/-- Witness for C7 at a concrete zero-mass record. -/
theorem zero_mass_emits_zero_velocity_witness :
    (0:ℚ) < 2 ∧
    (calc_escape_velocity
        [⟨some ("Z"), some (.num 2 false), some (.num 0 false), none, none⟩]
        (.pybool true)
      = .ok ⟨[(("Z"), ⟨.fin 0, true⟩)], none⟩
    ∧ escape_velocity_value 0 = 0) :=
  ⟨by norm_num,
    zero_mass_emits_zero_velocity (.pybool true)
      ⟨some ("Z"), some (.num 2 false), some (.num 0 false), none, none⟩
      ("Z") 2 false false rfl rfl rfl (by norm_num)⟩

/-- C8: the batch cap is an explicit opt-in parameter, not a hidden
constant: a nonzero select_specified_rows makes the query string ask the
service for the top N rows, so the records handed to the calculator are the
first N rows of the table and only those are considered; with the default 0
all rows are requested. -/
theorem limit_parameter_top_rows (select_strs : List String)
    (table : List PlanetRecord) (N : ℕ) (flag : PyFlag) (hN : N ≠ 0) :
    select_string select_strs N
      = ("select+top+") ++ toString N ++ ("+") ++
          String.intercalate (",+") select_strs ++ ("+")
    ∧ tap_service_rows table N = table.take N
    ∧ tap_service_rows table 0 = table
    ∧ calc_escape_velocity (tap_service_rows table N) flag
        = calc_escape_velocity (table.take N) flag := by
  refine ⟨?_, ?_, ?_, ?_⟩ <;> simp [select_string, tap_service_rows, hN]

/-- Witness for C8 with limit 2 on a three-row table. -/
theorem limit_parameter_top_rows_witness :
    (2 : ℕ) ≠ 0 ∧
    (select_string [("pl_name")] 2
      = ("select+top+") ++ toString (2 : ℕ) ++ ("+") ++
          String.intercalate (",+") [("pl_name")] ++ ("+")
    ∧ tap_service_rows [⟨none, none, none, none, none⟩, ⟨none, none, none, none, none⟩,
        ⟨none, none, none, none, none⟩] 2
      = List.take 2 [⟨none, none, none, none, none⟩, ⟨none, none, none, none, none⟩,
          ⟨none, none, none, none, none⟩]
    ∧ tap_service_rows [⟨none, none, none, none, none⟩, ⟨none, none, none, none, none⟩,
        ⟨none, none, none, none, none⟩] 0
      = [⟨none, none, none, none, none⟩, ⟨none, none, none, none, none⟩,
          ⟨none, none, none, none, none⟩]
    ∧ calc_escape_velocity (tap_service_rows [⟨none, none, none, none, none⟩,
        ⟨none, none, none, none, none⟩, ⟨none, none, none, none, none⟩] 2) (.pybool true)
      = calc_escape_velocity (List.take 2 [⟨none, none, none, none, none⟩,
          ⟨none, none, none, none, none⟩, ⟨none, none, none, none, none⟩]) (.pybool true)) :=
  ⟨by decide,
    limit_parameter_top_rows [("pl_name")]
      [⟨none, none, none, none, none⟩, ⟨none, none, none, none, none⟩,
        ⟨none, none, none, none, none⟩] 2 (.pybool true) (by decide)⟩

/-- C9 counterexample: an unrecognized unit_system argument does not make the
function fail fast.  The numeric value 3 is not a Bool at all, yet it is
simply truthy, so the call silently computes every record under Earth units
and succeeds instead of raising before any per-record computation. -/
theorem unrecognized_unit_system_no_failfast :
    calc_escape_velocity
      [⟨some ("K"), some (.num 1 false), some (.num 1 false), none, none⟩]
      (.pynum 3)
    = .ok ⟨[(("K"), ⟨.fin (2 * g * (1 * earth_mass) / (1 * earth_radius)), true⟩)], none⟩ := by
  norm_num [calc_escape_velocity, calcLoop, procRecord, getNum, divBase, powHalf,
    npFloatNormalize, truthy, earth_mass, earth_radius, g]

/-- C9 (amended): the function never validates the unit-system argument.
Any truthy value selects Earth constants and any falsy value selects
Jupiter constants, so the behaviour factors through truthiness and no value
of the argument by itself causes a failure (the empty batch always
succeeds); the only exceptions raised are per-record data errors. -/
theorem flag_truthiness_selects_units (results : List PlanetRecord) (flag : PyFlag) :
    calc_escape_velocity results flag
      = calc_escape_velocity results (.pybool (truthy flag))
    ∧ calc_escape_velocity [] flag = .ok ⟨[], none⟩ :=
  ⟨rfl, rfl⟩

/-- C10: every emitted escape-velocity value is a numpy floating scalar: the
isinstance check converts a plain Python float with np.float64, so the
output is uniformly numpy-typed on both the requests/JSON and PyVO paths. -/
theorem emitted_velocity_is_numpy_float (results : List PlanetRecord) (flag : PyFlag)
    (out : CalcOutcome) (h : calc_escape_velocity results flag = .ok out) :
    ∀ en ∈ out.printed, en.2.np = true := by
  unfold calc_escape_velocity at h
  split at h
  · exact absurd h (by simp)
  next pd hpd =>
    cases h
    exact calcLoop_np (truthy flag) results pd hpd

/-- Witness for C10: in a batch mixing a plain-float record and a numpy
record, the entry emitted for the plain-float record carries the numpy
flag. -/
theorem emitted_velocity_is_numpy_float_witness :
    ((("P"), (⟨.fin (2 * g * (1 * earth_mass) / (1 * earth_radius)), true⟩ : EmittedVel)) :
        String × EmittedVel).2.np = true :=
  emitted_velocity_is_numpy_float
    [⟨some ("P"), some (.num 1 false), some (.num 1 false), none, none⟩,
     ⟨some ("Q"), some (.num 1 true), some (.num 2 true), none, none⟩]
    (.pybool true)
    (CalcOutcome.mk
      [(("P"), ⟨.fin (2 * g * (1 * earth_mass) / (1 * earth_radius)), true⟩),
       (("Q"), ⟨.fin (2 * g * (2 * earth_mass) / (1 * earth_radius)), true⟩)]
      none)
    (by norm_num [calc_escape_velocity, calcLoop, procRecord, getNum, divBase, powHalf,
      npFloatNormalize, truthy, earth_mass, earth_radius, g])
    (("P"), ⟨.fin (2 * g * (1 * earth_mass) / (1 * earth_radius)), true⟩)
    (by simp)
